import Mathlib

/-
Verification development for the go-musthave-metrics telemetry pipeline.

Shallow embedding of the agent/server code:
  * internal/model/metrics.go            — the Metric data model
  * internal/agent (sender generation with Retry/classifier/batch fallback)
                                         — validateMetric, HTTPErrorClassifier,
                                           isRetriableNetworkError, Retry,
                                           SendMetrics / sendBatch / sendOne
  * internal/repository/memory/memstorage.go — MemStorage
  * internal/repository/postgres/postgres.go — PostgresStorage.Retry,
                                           UpdateMetricsBatch (transaction)
  * internal/repository/postgres/errors/errors.go — PostgresErrorClassifier
  * the agent dispatcher goroutine (Agent.Start) and SafeMetrics accumulator

Machine integers: Go int64 arithmetic is embedded as Int with an explicit
two's-complement wrap `wrap64`.  float64 gauge payloads are never subject to
arithmetic in any verified property (they are only stored and replaced), so a
gauge value is embedded as its 64-bit pattern, an opaque `Float64` token.
-/

/-- A float64 payload, represented by its 64-bit pattern.  The code never does
floating-point arithmetic on gauge values in the properties below: gauges are
only stored, replaced and copied, so the bit pattern is all that matters. -/
structure Float64 where
  bits : Nat
deriving DecidableEq, Repr

/-- `model.Counter = "counter"` (internal/model/metrics.go). -/
def model.Counter : String := "counter"

/-- `model.Gauge = "gauge"` (internal/model/metrics.go). -/
def model.Gauge : String := "gauge"

/-- Go struct `model.Metrics`: `ID string`, `MType string`, `Delta *int64`,
`Value *float64`, `Hash string`.  Nil pointers are embedded as `none`. -/
structure Metrics where
  id : String
  mtype : String
  delta : Option Int
  value : Option Float64
  hash : String
deriving DecidableEq, Repr

/-- Two's-complement wrap of Go `int64` arithmetic results into
`[-2^63, 2^63)`. -/
def wrap64 (x : Int) : Int := (x + 2 ^ 63) % 2 ^ 64 - 2 ^ 63

/-- Go `int64` addition (`+=` on counters): add and wrap. -/
def i64add (a b : Int) : Int := wrap64 (a + b)

/-- Substring search over character lists, used to embed `strings.Contains`. -/
def listContainsSub (pat : List Char) : List Char → Bool
  | [] => pat.isEmpty
  | c :: rest => pat.isPrefixOf (c :: rest) || listContainsSub pat rest

/-- Go `strings.Contains errStr pat`. -/
def strContains (s pat : String) : Bool := listContainsSub pat.toList s.toList

/-- Shared shape of the two Go enums `agent.ErrorClassification` and
`errors.ErrorClassification`: `NonRetriable = 0`, `Retriable = 1`. -/
inductive ErrorClassification
  | NonRetriable
  | Retriable
deriving DecidableEq, Repr

/-- `isRetriableNetworkError` (agent sender): a nil error is not retriable;
otherwise the error text is matched against the known transient network
conditions by `strings.Contains`. -/
def isRetriableNetworkError (err : Option String) : Bool :=
  match err with
  | none => false
  | some errStr =>
    strContains errStr "timeout" ||
    strContains errStr "connection refused" ||
    strContains errStr "connection reset" ||
    strContains errStr "network is unreachable" ||
    strContains errStr "no such host" ||
    strContains errStr "temporary failure" ||
    strContains errStr "EOF" ||
    strContains errStr "connection closed"

/-- `HTTPErrorClassifier.ClassifyHTTPError(err, statusCode)`: nil error with
status 0 is non-retriable; a transient network error text is retriable;
status 408 and 429 are retriable; any status ≥ 500 is retriable; everything
else is non-retriable. -/
def ClassifyHTTPError (err : Option String) (statusCode : Int) : ErrorClassification :=
  if err.isNone && statusCode == 0 then .NonRetriable
  else if err.isSome && isRetriableNetworkError err then .Retriable
  else if statusCode == 408 || statusCode == 429 then .Retriable
  else if 500 ≤ statusCode then .Retriable
  else .NonRetriable

/-- A Go `error` value as seen by the database classifier's `errors.As`
unwrap: either a `*pgconn.PgError` carrying a vendor code, a plain
non-database error, or a wrapper (`fmt.Errorf("...: %w", inner)`) around
another error. -/
inductive DBErr
  | pgError (code : String)
  | plain (msg : String)
  | wrapped (msg : String) (inner : DBErr)
deriving DecidableEq, Repr

/-- `errors.As(err, &pgErr)`: walk the wrap chain looking for a
`*pgconn.PgError`; return its code when found. -/
def DBErr.asPgError : DBErr → Option String
  | .pgError code => some code
  | .plain _ => none
  | .wrapped _ inner => inner.asPgError

/-- `pgerrcode.SerializationFailure`. -/
def pgerrcode.SerializationFailure : String := "40001"

/-- `pgerrcode.DeadlockDetected`. -/
def pgerrcode.DeadlockDetected : String := "40P01"

/-- `pgerrcode.AdminShutdown`. -/
def pgerrcode.AdminShutdown : String := "57P01"

/-- `pgerrcode.CrashShutdown`. -/
def pgerrcode.CrashShutdown : String := "57P02"

/-- `pgerrcode.CannotConnectNow`. -/
def pgerrcode.CannotConnectNow : String := "57P03"

/-- Go `strings.HasPrefix s pre` / the class test on a vendor code, embedded
over character lists so that the kernel can evaluate it. -/
def strStarts (pre s : String) : Bool := pre.toList.isPrefixOf s.toList

/-- `PostgresErrorClassifier.classifyPostgresError(pgErr)`: class 08
(connection exception) and the five listed codes are retriable; every other
code is non-retriable. -/
def classifyPostgresError (code : String) : ErrorClassification :=
  if strStarts "08" code then .Retriable
  else if code = pgerrcode.SerializationFailure ∨ code = pgerrcode.DeadlockDetected ∨
      code = pgerrcode.AdminShutdown ∨ code = pgerrcode.CrashShutdown ∨
      code = pgerrcode.CannotConnectNow then .Retriable
  else .NonRetriable

/-- `PostgresErrorClassifier.Classify(err)`: nil is non-retriable; a
`*pgconn.PgError` found by `errors.As` is classified by its code; any other
error is non-retriable. -/
def PostgresErrorClassifier.Classify (err : Option DBErr) : ErrorClassification :=
  match err with
  | none => .NonRetriable
  | some e =>
    match e.asPgError with
    | some code => classifyPostgresError code
    | none => .NonRetriable

/-- Result of one `Retry` call.  `ok` is a nil return; `nonRetriable` is the
wrapped non-retriable error return; `cancelled` is the wrapped
cancellation-cause return; `exhausted` is the wrapped all-attempts-failed
return. -/
inductive RetryResult
  | ok
  | nonRetriable
  | cancelled
  | exhausted
deriving DecidableEq, Repr

/-- Observable behaviour of one `Retry` call: how many times the operation was
invoked, which delay waits were completed (in seconds, in order), and which of
the four returns was taken. -/
structure RetryOutcome where
  calls : Nat
  waits : List Nat
  result : RetryResult
deriving DecidableEq, Repr

/-- A cancellation token, embedded by the index of the first inter-attempt
wait during which `ctx.Done()` fires (`none`: never fires).  Cancellation is
monotone: once fired, it fires during every later wait as well; a token
already cancelled before the call is `some 0`. -/
def cancelFires (cancelAt : Option Nat) (waitIdx : Nat) : Bool :=
  match cancelAt with
  | none => false
  | some j => j ≤ waitIdx

/-- The retry loop body shared verbatim by `HTTPSender.Retry` and
`PostgresStorage.Retry`: at each attempt invoke the operation; return nil on
success; return immediately (wrapped) on a non-retriable error; otherwise, if
`attempt < len(delays)`, wait `delays[attempt]` unless the cancellation token
fires first (in which case return the cancellation error); after the loop
return the all-attempts-failed error.  `op k` is the error returned by the
`k`-th invocation of the operation (`none` = nil), `remaining` the attempts
left out of `MaxAttempts`. -/
def retryAux {ε : Type} (classify : ε → Bool) (delays : List Nat)
    (cancelAt : Option Nat) (op : Nat → Option ε) : Nat → Nat → RetryOutcome
  | _, 0 => ⟨0, [], .exhausted⟩
  | attempt, remaining + 1 =>
    match op attempt with
    | none => ⟨1, [], .ok⟩
    | some e =>
      if classify e then
        if h : attempt < delays.length then
          if cancelFires cancelAt attempt then ⟨1, [], .cancelled⟩
          else
            let rest := retryAux classify delays cancelAt op (attempt + 1) remaining
            ⟨rest.calls + 1, delays.get ⟨attempt, h⟩ :: rest.waits, rest.result⟩
        else
          let rest := retryAux classify delays cancelAt op (attempt + 1) remaining
          ⟨rest.calls + 1, rest.waits, rest.result⟩
      else ⟨1, [], .nonRetriable⟩

/-- `Retry(ctx, operation)`: run the loop from attempt 0 with `maxAttempts`
attempts, classifying errors with `classify`. -/
def retryRun {ε : Type} (classify : ε → Bool) (maxAttempts : Nat) (delays : List Nat)
    (cancelAt : Option Nat) (op : Nat → Option ε) : RetryOutcome :=
  retryAux classify delays cancelAt op 0 maxAttempts

/-- The delay schedule hardcoded in both `Retry` bodies:
`[]time.Duration{1s, 3s, 5s}`. -/
def retryDelays : List Nat := [1, 3, 5]

/-- `RetryConfig` (agent and postgres flavours coincide): attempts and delay
bounds in seconds. -/
structure RetryConfig where
  MaxAttempts : Nat
  InitialDelay : Nat
  MaxDelay : Nat
deriving DecidableEq, Repr

/-- `DefaultRetryConfig()`: 3 attempts, initial delay 1s, max delay 5s. -/
def DefaultRetryConfig : RetryConfig := ⟨3, 1, 5⟩

/-- An error value inside the agent sender: either a `RetriableError` wrapper
produced by `NewRetriableError`, or any other error. -/
inductive AgentErr
  | retriableWrap (msg : String)
  | plain (msg : String)
deriving DecidableEq, Repr

/-- `IsRetriableError(err)`: `errors.As(err, &RetriableError{})`. -/
def IsRetriableError : AgentErr → Bool
  | .retriableWrap _ => true
  | .plain _ => false

/-- `HTTPSender.Retry` with the default config: the generic loop instantiated
with `IsRetriableError` as the classifier. -/
def HTTPSender.Retry (cancelAt : Option Nat) (op : Nat → Option AgentErr) : RetryOutcome :=
  retryRun IsRetriableError DefaultRetryConfig.MaxAttempts retryDelays cancelAt op

/-- `PostgresStorage.Retry` with the default config: the generic loop
instantiated with the database classifier
(`p.errorClassifier.Classify(err) != Retriable` aborts). -/
def PostgresStorage.Retry (cancelAt : Option Nat) (op : Nat → Option DBErr) : RetryOutcome :=
  retryRun (fun e => PostgresErrorClassifier.Classify (some e) == .Retriable)
    DefaultRetryConfig.MaxAttempts retryDelays cancelAt op

/-- Witness fixture: an operation that always fails with a plain
(non-retriable) sender error. -/
def opAlwaysPlain : Nat → Option AgentErr := fun _ => some (.plain "boom")

/-- Witness fixture: an operation that fails retriably on the first two
invocations and succeeds on the third. -/
def opFailTwice : Nat → Option AgentErr := fun k =>
  match k with
  | 0 => some (.retriableWrap "net")
  | 1 => some (.retriableWrap "net")
  | _ => none

/-- Witness fixture: an operation that always fails retriably. -/
def opAlwaysRetriable : Nat → Option AgentErr := fun _ => some (.retriableWrap "net")

/-- Witness fixture: a database operation that always fails with a
non-database (hence non-retriable) error. -/
def pgOpAlwaysPlain : Nat → Option DBErr := fun _ => some (.plain "perm")

/-- Witness fixture: a database operation failing with retriable vendor codes
twice, then succeeding. -/
def pgOpFailTwice : Nat → Option DBErr := fun k =>
  match k with
  | 0 => some (.pgError "40001")
  | 1 => some (.pgError "08006")
  | _ => none

/-- Witness fixture: a database operation that always fails with a
connection-exception (class 08) error. -/
def pgOpAlwaysRetriable : Nat → Option DBErr := fun _ => some (.pgError "08006")

/-- `validateMetric(metric)` (sender generation with retry/fallback): empty
id, nil Delta for a counter, negative Delta for a counter, nil Value for a
gauge, and an unknown type are validation errors; everything else passes. -/
def validateMetric (metric : Metrics) : Option String :=
  if metric.id = "" then some "empty ID metric"
  else if metric.mtype = model.Counter then
    match metric.delta with
    | none => some ("metric " ++ metric.id ++ " has nil Delta")
    | some d => if d < 0 then some ("delta cannot be negative for metric " ++ metric.id)
      else none
  else if metric.mtype = model.Gauge then
    match metric.value with
    | none => some ("metric " ++ metric.id ++ " has nil Value")
    | some _ => none
  else some ("unknown metric type " ++ metric.mtype)

/-- Outcome of one HTTP POST as the sender sees it: a transport error
(`err != nil`) carrying its text, or a received response with a status code. -/
inductive HTTPResp
  | netErr (msg : String)
  | status (code : Int)
deriving DecidableEq, Repr

/-- The environment: how the collector answers each request.  `batch k` is the
answer to the `k`-th POST of `/updates/`; `itemJSON id k` / `itemText id k`
answer the `k`-th attempt for the metric `id` on the JSON single-item and
legacy text endpoints. -/
structure ServerModel where
  batch : Nat → HTTPResp
  itemJSON : String → Nat → HTTPResp
  itemText : String → Nat → HTTPResp

/-- The classify-and-wrap tail shared by `sendJSON`, `sendText` and
`sendBatch`: a transport error is wrapped as `RetriableError` iff the network
classifier says Retriable; a received status is wrapped as `RetriableError`
iff the classifier says Retriable, is nil for 200, and is a plain error
otherwise. -/
def respToErr (resp : HTTPResp) : Option AgentErr :=
  match resp with
  | .netErr msg =>
    if ClassifyHTTPError (some msg) 0 = .Retriable then some (.retriableWrap msg)
    else some (.plain msg)
  | .status code =>
    if ClassifyHTTPError none code = .Retriable then some (.retriableWrap "retriable status")
    else if code = 200 then none
    else some (.plain "non-retriable status")

/-- `HTTPSender.sendBatch` at its `k`-th invocation: POST the gzip+JSON batch
to `/updates/` and classify the answer.  (JSON marshalling and gzip cannot
fail for well-formed metric values and are not failure points here.) -/
def HTTPSender.sendBatch (server : ServerModel) (k : Nat) : Option AgentErr :=
  respToErr (server.batch k)

/-- `HTTPSender.sendOne` for metric `m` at its `k`-th invocation: try the JSON
single-item endpoint; on success done after 1 request; on a retriable error
return it after 1 request; on a non-retriable error fall back to the legacy
text endpoint (2 requests), returning its outcome.  The second component
counts the requests the server observes in this invocation. -/
def HTTPSender.sendOne (server : ServerModel) (m : Metrics) (k : Nat) : Option AgentErr × Nat :=
  match respToErr (server.itemJSON m.id k) with
  | none => (none, 1)
  | some jsonErr =>
    if IsRetriableError jsonErr then (some jsonErr, 1)
    else (respToErr (server.itemText m.id k), 2)

/-- Observable behaviour of one `SendMetrics` call: how many batch-endpoint
requests and how many per-item requests the server observes, which metrics
were used for transmission, and whether the call returned nil. -/
structure SendOutcome where
  batchAttempts : Nat
  itemAttempts : Nat
  sentMetrics : List Metrics
  ok : Bool
deriving DecidableEq, Repr

/-- Requests the server observes for one metric on the per-item fallback path:
`Retry` over `sendOne` invokes the operation at attempts `0, …, calls-1`; each
invocation costs the requests `sendOne` reports. -/
def itemRequests (server : ServerModel) (m : Metrics) : Nat :=
  ((List.range (HTTPSender.Retry none
      (fun k => (HTTPSender.sendOne server m k).fst)).calls).map
    (fun k => (HTTPSender.sendOne server m k).snd)).sum

/-- The body of `SendMetrics` after validation: try the batch path wrapped in
`Retry`; if it returns nil, done; otherwise fan out to per-metric sends, each
wrapped in its own `Retry`, with individual failures logged and swallowed, so
the call returns `g.Wait() = nil` either way. -/
def sendFallback (server : ServerModel) (validMetrics : List Metrics) : SendOutcome :=
  if (HTTPSender.Retry none (HTTPSender.sendBatch server)).result = .ok then
    ⟨(HTTPSender.Retry none (HTTPSender.sendBatch server)).calls, 0, validMetrics, true⟩
  else
    ⟨(HTTPSender.Retry none (HTTPSender.sendBatch server)).calls,
      (validMetrics.map (fun m => itemRequests server m)).sum, validMetrics, true⟩

/-- `HTTPSender.SendMetrics(ctx, metrics)`: drop the metrics `validateMetric`
rejects (logging a local warning), then run the batch-with-fallback chain on
the valid ones. -/
def HTTPSender.SendMetrics (server : ServerModel) (metrics : List Metrics) : SendOutcome :=
  sendFallback server (metrics.filter (fun m => (validateMetric m).isNone))

/-- The C1 scenario server: always status 500 on the batch endpoint, always
status 200 on both per-item endpoints. -/
def c1Server : ServerModel :=
  ⟨fun _ => .status 500, fun _ _ => .status 200, fun _ _ => .status 200⟩

/-- The C1 scenario batch: two valid metrics, one gauge and one counter. -/
def c1Metrics : List Metrics :=
  [⟨"Alloc", model.Gauge, none, some ⟨1⟩, ""⟩,
   ⟨"PollCount", model.Counter, some 42, none, ""⟩]

/-- Witness fixture: a counter metric with a nil Delta. -/
def c4BadCounter : Metrics := ⟨"PollCount", model.Counter, none, none, ""⟩

/-- Witness fixture: a mixed list with valid and invalid entries of every
invalid class. -/
def c4Metrics : List Metrics :=
  [⟨"", model.Gauge, none, some ⟨1⟩, ""⟩,
   c4BadCounter,
   ⟨"ok", model.Counter, some 3, none, ""⟩,
   ⟨"neg", model.Counter, some (-1), none, ""⟩,
   ⟨"noval", model.Gauge, none, none, ""⟩]

/-- `MemStorage`: the gauge and counter maps (the lock serialises access; the
embedding is of the serialised semantics). -/
structure MemStorage where
  gauges : String → Option Float64
  counters : String → Option Int

/-- `memory.New()`: both maps empty. -/
def MemStorage.empty : MemStorage := ⟨fun _ => none, fun _ => none⟩

/-- `MemStorage.UpsertGauge`: `m.gauges[id] = value` (overwrite). -/
def MemStorage.UpsertGauge (m : MemStorage) (id : String) (value : Float64) : MemStorage :=
  ⟨fun x => if x = id then some value else m.gauges x, m.counters⟩

/-- `MemStorage.UpsertCounter`: `m.counters[id] += delta` — a Go map read
yields the zero value for a missing key, and int64 addition wraps. -/
def MemStorage.UpsertCounter (m : MemStorage) (id : String) (delta : Int) : MemStorage :=
  ⟨m.gauges, fun x => if x = id then some (i64add ((m.counters id).getD 0) delta)
    else m.counters x⟩

/-- One entry of `MemStorage.UpdateMetricsBatch`'s loop: a gauge with a
present value overwrites, a counter with a present delta adds in place, any
other entry (nil field or unknown type) is skipped. -/
def MemStorage.applyBatchEntry (m : MemStorage) (metric : Metrics) : MemStorage :=
  if metric.mtype = model.Gauge then
    match metric.value with
    | some v => m.UpsertGauge metric.id v
    | none => m
  else if metric.mtype = model.Counter then
    match metric.delta with
    | some d => m.UpsertCounter metric.id d
    | none => m
  else m

/-- `MemStorage.UpdateMetricsBatch`: apply every entry of the batch under one
critical section. -/
def MemStorage.UpdateMetricsBatch (m : MemStorage) (metrics : List Metrics) : MemStorage :=
  metrics.foldl MemStorage.applyBatchEntry m

/-- One storage call in an interleaving: a single gauge upsert, a single
counter upsert, or one batch update. -/
inductive StoreOp
  | upsertGauge (id : String) (value : Float64)
  | upsertCounter (id : String) (delta : Int)
  | updateBatch (metrics : List Metrics)

/-- Apply one storage call. -/
def MemStorage.applyOp (m : MemStorage) : StoreOp → MemStorage
  | .upsertGauge id v => m.UpsertGauge id v
  | .upsertCounter id d => m.UpsertCounter id d
  | .updateBatch ms => m.UpdateMetricsBatch ms

/-- Apply a whole interleaving of storage calls, in order. -/
def MemStorage.applyOps (m : MemStorage) (ops : List StoreOp) : MemStorage :=
  ops.foldl MemStorage.applyOp m

/-- The deltas one batch applies to counter `id`, in order: counter entries
for that id with a present delta; everything else contributes nothing. -/
def batchCounterDeltas (id : String) (metrics : List Metrics) : List Int :=
  metrics.filterMap (fun m =>
    if m.mtype = model.Counter ∧ m.id = id then m.delta else none)

/-- The deltas one storage call applies to counter `id`. -/
def opCounterDeltas (id : String) : StoreOp → List Int
  | .upsertGauge _ _ => []
  | .upsertCounter i d => if i = id then [d] else []
  | .updateBatch ms => batchCounterDeltas id ms

/-- All deltas an interleaving applies to counter `id`, in order. -/
def opsCounterDeltas (id : String) (ops : List StoreOp) : List Int :=
  (ops.map (opCounterDeltas id)).flatten

/-- The stored value of counter `id` as Go reads it (zero for missing). -/
def MemStorage.counterValue (m : MemStorage) (id : String) : Int :=
  (m.counters id).getD 0

/-- Witness fixture: an interleaving of single and batched counter upserts to
"PollCount" (deltas 1, 2, 4) mixed with gauge writes, other ids and a
nil-delta entry. -/
def c7ops : List StoreOp :=
  [.upsertCounter "PollCount" 1,
   .updateBatch [⟨"PollCount", model.Counter, some 2, none, ""⟩,
     ⟨"Alloc", model.Gauge, none, some ⟨5⟩, ""⟩,
     ⟨"PollCount", model.Counter, none, none, ""⟩],
   .upsertGauge "Alloc" ⟨7⟩,
   .upsertCounter "Other" 100,
   .updateBatch [⟨"PollCount", model.Counter, some 4, none, ""⟩]]

/-- A row of the `metrics` table (columns used by the upsert statements). -/
structure PgRow where
  mtype : String
  value : Option Float64
  delta : Option Int
deriving DecidableEq, Repr

/-- The visible database state: at most one row per id (`ON CONFLICT (id)`). -/
def PgState := String → Option PgRow

/-- `upsertGaugeSQL`: `INSERT … ON CONFLICT (id) DO UPDATE SET value = $3,
delta = NULL` — the update clause does not change `mtype`. -/
def pgUpsertGauge (s : PgState) (id : String) (v : Float64) : PgState :=
  fun x => if x = id then
    match s id with
    | none => some ⟨"gauge", some v, none⟩
    | some row => some ⟨row.mtype, some v, none⟩
  else s x

/-- `upsertCounterSQL`: `INSERT … ON CONFLICT (id) DO UPDATE SET
delta = COALESCE(metrics.delta, 0) + $3, value = NULL`. -/
def pgUpsertCounter (s : PgState) (id : String) (d : Int) : PgState :=
  fun x => if x = id then
    match s id with
    | none => some ⟨"counter", none, some d⟩
    | some row => some ⟨row.mtype, none, some (i64add (row.delta.getD 0) d)⟩
  else s x

/-- Fate of one `UpdateMetricsBatch` transaction body: committed with the new
state, rolled back because a statement returned an error, or a nil-pointer
dereference (the source reads `*metric.Value` / `*metric.Delta`
unconditionally when building statement arguments). -/
inductive TxResult
  | committed (t : PgState)
  | rolledBack (e : DBErr)
  | panicked

/-- The loop inside `UpdateMetricsBatch`'s transaction: statements execute
against the transaction-local state `t`, invisible outside the transaction;
`fail j` is the error, if any, that the database returns for the `j`-th
executed statement; the first statement error is returned, so the deferred
`tx.Rollback` discards `t`; entries that are neither gauge nor counter
execute no statement. -/
def pgBatchLoop (fail : Nat → Option DBErr) : PgState → Nat → List Metrics → TxResult
  | t, _, [] => .committed t
  | t, k, metric :: rest =>
    if metric.mtype = model.Gauge then
      match metric.value with
      | none => .panicked
      | some v =>
        match fail k with
        | some e => .rolledBack e
        | none => pgBatchLoop fail (pgUpsertGauge t metric.id v) (k + 1) rest
    else if metric.mtype = model.Counter then
      match metric.delta with
      | none => .panicked
      | some d =>
        match fail k with
        | some e => .rolledBack e
        | none => pgBatchLoop fail (pgUpsertCounter t metric.id d) (k + 1) rest
    else pgBatchLoop fail t k rest

/-- `PostgresStorage.UpdateMetricsBatch`'s transaction body (one attempt,
before the `Retry` wrapper): `tx := Begin(); defer tx.Rollback();` run the
loop from statement 0; `tx.Commit()` on completion. -/
def PostgresStorage.UpdateMetricsBatchTx (fail : Nat → Option DBErr) (s : PgState)
    (metrics : List Metrics) : TxResult :=
  pgBatchLoop fail s 0 metrics

/-- The database state visible after the transaction: the transaction-local
state if committed; the prior state if rolled back (or if the process died in
a panic — an open transaction is discarded either way). -/
def pgVisibleAfter (fail : Nat → Option DBErr) (s : PgState) (metrics : List Metrics) : PgState :=
  match pgBatchLoop fail s 0 metrics with
  | .committed t => t
  | .rolledBack _ => s
  | .panicked => s

/-- How many statements the batch executes: one per gauge or counter entry. -/
def pgExecCount : List Metrics → Nat
  | [] => 0
  | metric :: rest =>
    if metric.mtype = model.Gauge ∨ metric.mtype = model.Counter then pgExecCount rest + 1
    else pgExecCount rest

/-- Every gauge entry has a value and every counter entry has a delta, so the
unconditional dereferences in the loop cannot panic. -/
def pgWellFormed (metrics : List Metrics) : Prop :=
  ∀ m ∈ metrics, (m.mtype = model.Gauge → m.value.isSome) ∧
    (m.mtype = model.Counter → m.delta.isSome)

/-- Witness fixture: the database rejects the second executed statement. -/
def c8fail : Nat → Option DBErr := fun k => if k = 1 then some (.pgError "23505") else none

/-- Witness fixture: an empty database. -/
def c8init : PgState := fun _ => none

/-- Witness fixture: a three-entry batch whose second statement fails. -/
def c8metrics : List Metrics :=
  [⟨"Alloc", model.Gauge, none, some ⟨10⟩, ""⟩,
   ⟨"PollCount", model.Counter, some 5, none, ""⟩,
   ⟨"Frees", model.Gauge, none, some ⟨2⟩, ""⟩]

/-- The dispatcher-visible state: the open accumulator (the `SafeMetrics`
batch being filled) and the buffered work queue (`metricsCh`), each queue
element being one swapped-out batch awaiting a worker. -/
structure DispatchState where
  acc : List Metrics
  queue : List (List Metrics)

/-- `metricsCh := make(chan *model.MetricsBatch, a.rateLimit*2)`. -/
def queueCapacity (rateLimit : Nat) : Nat := rateLimit * 2

/-- One report tick of the dispatcher goroutine (`Agent.Start`):
`batch := collectedMetrics.GetAndClear()` swaps the accumulator for a fresh
empty one; an empty batch is returned to the pool and the tick ends; a
non-blocking channel send enqueues the batch when buffer space is free;
otherwise (`default:` — all workers busy, buffer full) `batch.Item` is
appended back into the still-open accumulator and the emptied batch object is
returned to the pool. -/
def reportTickStep (rateLimit : Nat) (s : DispatchState) : DispatchState :=
  if s.acc.isEmpty then ⟨[], s.queue⟩
  else if s.queue.length < queueCapacity rateLimit then ⟨[], s.queue ++ [s.acc]⟩
  else ⟨s.acc, s.queue⟩

/-- Witness fixture: a dispatcher state whose queue is saturated for
`rateLimit = 1` (capacity 2) with a non-empty open accumulator. -/
def c9state : DispatchState :=
  ⟨[⟨"Alloc", model.Gauge, none, some ⟨1⟩, ""⟩],
   [[⟨"HeapSys", model.Gauge, none, some ⟨2⟩, ""⟩],
    [⟨"PollCount", model.Counter, some 1, none, ""⟩]]⟩

/-- C5: the network/HTTP classifier returns Retriable exactly when the error
text matches one of the code's known transient network conditions
(`isRetriableNetworkError`) or the response status code is 408, 429, or at
least 500; for every other status and every other error it returns
NonRetriable. -/
theorem classifyHTTPError_retriable_iff (err : Option String) (statusCode : Int) :
    ClassifyHTTPError err statusCode = .Retriable ↔
      (isRetriableNetworkError err = true ∨
        statusCode = 408 ∨ statusCode = 429 ∨ 500 ≤ statusCode) := by
  unfold ClassifyHTTPError
  rcases err with _ | s <;>
    split_ifs with h0 h1 h2 h3 <;>
      simp_all [isRetriableNetworkError] <;> omega

/-- C6: the database classifier returns Retriable exactly for errors in whose
wrap chain `errors.As` finds a structured database error whose vendor code has
the connection-exception class 08 or is one of serialization-failure,
deadlock-detected, admin-shutdown, crash-shutdown, cannot-connect-now; every
other error is NonRetriable. -/
theorem postgresClassify_retriable_iff (err : Option DBErr) :
    PostgresErrorClassifier.Classify err = .Retriable ↔
      (∃ e code, err = some e ∧ e.asPgError = some code ∧
        (strStarts "08" code = true ∨ code = "40001" ∨ code = "40P01" ∨
          code = "57P01" ∨ code = "57P02" ∨ code = "57P03")) := by
  rcases err with _ | e
  · simp [PostgresErrorClassifier.Classify]
  · rcases hc : e.asPgError with _ | code
    · simp [PostgresErrorClassifier.Classify, hc]
    · simp only [PostgresErrorClassifier.Classify, hc]
      unfold classifyPostgresError
      simp only [pgerrcode.SerializationFailure, pgerrcode.DeadlockDetected,
        pgerrcode.AdminShutdown, pgerrcode.CrashShutdown, pgerrcode.CannotConnectNow]
      split_ifs with h08 hlist
      · exact iff_of_true rfl ⟨e, code, rfl, hc, Or.inl h08⟩
      · exact iff_of_true rfl ⟨e, code, rfl, hc, Or.inr hlist⟩
      · refine iff_of_false (by simp) ?_
        rintro ⟨e', code', he, hc', hcase⟩
        injection he with he'
        subst he'
        rw [hc] at hc'
        injection hc' with hcode
        subst hcode
        rcases hcase with h | h
        · exact h08 h
        · exact hlist h

/-- Evaluation lemma: a first-attempt non-retriable error makes the loop
return the wrapped error after exactly one invocation and no wait. -/
theorem retryRun_first_nonretriable {ε : Type} (classify : ε → Bool) (cancelAt : Option Nat)
    (op : Nat → Option ε) (h : ∃ e, op 0 = some e ∧ classify e = false) :
    retryRun classify DefaultRetryConfig.MaxAttempts retryDelays cancelAt op =
      ⟨1, [], .nonRetriable⟩ := by
  obtain ⟨e, he, hc⟩ := h
  simp [retryRun, DefaultRetryConfig, retryAux, he, hc]

/-- Evaluation lemma: two retriable failures followed by a success give three
invocations, two completed waits and a nil return. -/
theorem retryRun_two_fail_then_ok {ε : Type} (classify : ε → Bool) (op : Nat → Option ε)
    (h0 : ∃ e, op 0 = some e ∧ classify e = true)
    (h1 : ∃ e, op 1 = some e ∧ classify e = true)
    (h2 : op 2 = none) :
    retryRun classify DefaultRetryConfig.MaxAttempts retryDelays none op = ⟨3, [1, 3], .ok⟩ := by
  obtain ⟨e0, he0, hc0⟩ := h0
  obtain ⟨e1, he1, hc1⟩ := h1
  simp [retryRun, DefaultRetryConfig, retryAux, he0, hc0, he1, hc1, h2, cancelFires, retryDelays]

/-- Evaluation lemma: with an already-cancelled token, a first retriable
failure returns the cancellation error after one invocation and no wait. -/
theorem retryRun_already_cancelled {ε : Type} (classify : ε → Bool) (op : Nat → Option ε)
    (h : ∃ e, op 0 = some e ∧ classify e = true) :
    retryRun classify DefaultRetryConfig.MaxAttempts retryDelays (some 0) op =
      ⟨1, [], .cancelled⟩ := by
  obtain ⟨e, he, hc⟩ := h
  simp [retryRun, DefaultRetryConfig, retryAux, he, hc, cancelFires, retryDelays]

/-- Evaluation lemma: three retriable failures exhaust the attempts and
complete all three scheduled waits, the one after the final attempt included. -/
theorem retryRun_exhausted {ε : Type} (classify : ε → Bool) (op : Nat → Option ε)
    (h0 : ∃ e, op 0 = some e ∧ classify e = true)
    (h1 : ∃ e, op 1 = some e ∧ classify e = true)
    (h2 : ∃ e, op 2 = some e ∧ classify e = true) :
    retryRun classify DefaultRetryConfig.MaxAttempts retryDelays none op =
      ⟨3, [1, 3, 5], .exhausted⟩ := by
  obtain ⟨e0, he0, hc0⟩ := h0
  obtain ⟨e1, he1, hc1⟩ := h1
  obtain ⟨e2, he2, hc2⟩ := h2
  simp [retryRun, DefaultRetryConfig, retryAux, he0, hc0, he1, hc1, he2, hc2,
    cancelFires, retryDelays]

/-- Evaluation lemma: a token firing during the final (third) wait turns the
exhausted return into the cancellation return. -/
theorem retryRun_cancel_final_wait {ε : Type} (classify : ε → Bool) (op : Nat → Option ε)
    (h0 : ∃ e, op 0 = some e ∧ classify e = true)
    (h1 : ∃ e, op 1 = some e ∧ classify e = true)
    (h2 : ∃ e, op 2 = some e ∧ classify e = true) :
    retryRun classify DefaultRetryConfig.MaxAttempts retryDelays (some 2) op =
      ⟨3, [1, 3], .cancelled⟩ := by
  obtain ⟨e0, he0, hc0⟩ := h0
  obtain ⟨e1, he1, hc1⟩ := h1
  obtain ⟨e2, he2, hc2⟩ := h2
  simp [retryRun, DefaultRetryConfig, retryAux, he0, hc0, he1, hc1, he2, hc2,
    cancelFires, retryDelays]

/-- C2: for every operation whose every invocation returns an error classified
non-retriable, `Retry` (both the sender's and the storage's) invokes the
operation exactly once and returns the wrapped non-retriable error; for every
operation whose first two invocations return retriable errors and whose third
returns nil, `Retry` under the default 3-attempt policy invokes the operation
exactly 3 times and returns nil. -/
theorem retry_termination (opN opS : Nat → Option AgentErr) (opP opQ : Nat → Option DBErr)
    (hN : ∀ k, ∃ e, opN k = some e ∧ IsRetriableError e = false)
    (hS0 : ∃ e, opS 0 = some e ∧ IsRetriableError e = true)
    (hS1 : ∃ e, opS 1 = some e ∧ IsRetriableError e = true)
    (hS2 : opS 2 = none)
    (hP : ∀ k, ∃ e, opP k = some e ∧ PostgresErrorClassifier.Classify (some e) = .NonRetriable)
    (hQ0 : ∃ e, opQ 0 = some e ∧ PostgresErrorClassifier.Classify (some e) = .Retriable)
    (hQ1 : ∃ e, opQ 1 = some e ∧ PostgresErrorClassifier.Classify (some e) = .Retriable)
    (hQ2 : opQ 2 = none) :
    ((HTTPSender.Retry none opN).calls = 1 ∧
      (HTTPSender.Retry none opN).result = .nonRetriable) ∧
    ((HTTPSender.Retry none opS).calls = 3 ∧
      (HTTPSender.Retry none opS).result = .ok) ∧
    ((PostgresStorage.Retry none opP).calls = 1 ∧
      (PostgresStorage.Retry none opP).result = .nonRetriable) ∧
    ((PostgresStorage.Retry none opQ).calls = 3 ∧
      (PostgresStorage.Retry none opQ).result = .ok) := by
  have hn : ∃ e, opN 0 = some e ∧ IsRetriableError e = false := hN 0
  have hp : ∃ e, opP 0 = some e ∧
      (PostgresErrorClassifier.Classify (some e) == ErrorClassification.Retriable) = false := by
    obtain ⟨e, he, hcl⟩ := hP 0
    exact ⟨e, he, by rw [hcl]; rfl⟩
  have hq0 : ∃ e, opQ 0 = some e ∧
      (PostgresErrorClassifier.Classify (some e) == ErrorClassification.Retriable) = true := by
    obtain ⟨e, he, hcl⟩ := hQ0
    exact ⟨e, he, by rw [hcl]; rfl⟩
  have hq1 : ∃ e, opQ 1 = some e ∧
      (PostgresErrorClassifier.Classify (some e) == ErrorClassification.Retriable) = true := by
    obtain ⟨e, he, hcl⟩ := hQ1
    exact ⟨e, he, by rw [hcl]; rfl⟩
  unfold HTTPSender.Retry PostgresStorage.Retry
  rw [retryRun_first_nonretriable IsRetriableError none opN hn,
    retryRun_two_fail_then_ok IsRetriableError opS hS0 hS1 hS2,
    retryRun_first_nonretriable _ none opP hp,
    retryRun_two_fail_then_ok _ opQ hq0 hq1 hQ2]
  exact ⟨⟨rfl, rfl⟩, ⟨rfl, rfl⟩, ⟨rfl, rfl⟩, ⟨rfl, rfl⟩⟩

/-- Witness for C2 at concrete operations. -/
theorem retry_termination_witness :
    ((HTTPSender.Retry none opAlwaysPlain).calls = 1 ∧
      (HTTPSender.Retry none opAlwaysPlain).result = .nonRetriable) ∧
    ((HTTPSender.Retry none opFailTwice).calls = 3 ∧
      (HTTPSender.Retry none opFailTwice).result = .ok) ∧
    ((PostgresStorage.Retry none pgOpAlwaysPlain).calls = 1 ∧
      (PostgresStorage.Retry none pgOpAlwaysPlain).result = .nonRetriable) ∧
    ((PostgresStorage.Retry none pgOpFailTwice).calls = 3 ∧
      (PostgresStorage.Retry none pgOpFailTwice).result = .ok) :=
  retry_termination opAlwaysPlain opFailTwice pgOpAlwaysPlain pgOpFailTwice
    (fun _ => ⟨.plain "boom", rfl, rfl⟩)
    ⟨.retriableWrap "net", rfl, rfl⟩ ⟨.retriableWrap "net", rfl, rfl⟩ rfl
    (fun _ => ⟨.plain "perm", rfl, rfl⟩)
    ⟨.pgError "40001", rfl, by decide⟩ ⟨.pgError "08006", rfl, by decide⟩ rfl

/-- C3: for every operation that returns a retriable error, `Retry` called
with an already-cancelled cancellation token returns the error wrapping the
cancellation cause without performing any delay wait (no completed waits), and
that return is distinct from the all-attempts-exhausted return; the operation
is invoked exactly once, i.e. at most once, before the cancellation is
observed. -/
theorem retry_cancellation_precedence (opA : Nat → Option AgentErr) (opP : Nat → Option DBErr)
    (hA : ∃ e, opA 0 = some e ∧ IsRetriableError e = true)
    (hP : ∃ e, opP 0 = some e ∧ PostgresErrorClassifier.Classify (some e) = .Retriable) :
    HTTPSender.Retry (some 0) opA = ⟨1, [], .cancelled⟩ ∧
    PostgresStorage.Retry (some 0) opP = ⟨1, [], .cancelled⟩ ∧
    RetryResult.cancelled ≠ RetryResult.exhausted := by
  have hp : ∃ e, opP 0 = some e ∧
      (PostgresErrorClassifier.Classify (some e) == ErrorClassification.Retriable) = true := by
    obtain ⟨e, he, hcl⟩ := hP
    exact ⟨e, he, by rw [hcl]; rfl⟩
  unfold HTTPSender.Retry PostgresStorage.Retry
  exact ⟨retryRun_already_cancelled IsRetriableError opA hA,
    retryRun_already_cancelled _ opP hp, by decide⟩

/-- Witness for C3 at concrete operations. -/
theorem retry_cancellation_precedence_witness :
    HTTPSender.Retry (some 0) opAlwaysRetriable = ⟨1, [], .cancelled⟩ ∧
    PostgresStorage.Retry (some 0) pgOpAlwaysRetriable = ⟨1, [], .cancelled⟩ ∧
    RetryResult.cancelled ≠ RetryResult.exhausted :=
  retry_cancellation_precedence opAlwaysRetriable pgOpAlwaysRetriable
    ⟨.retriableWrap "net", rfl, rfl⟩ ⟨.pgError "08006", rfl, by decide⟩

/-- C10: when every attempt fails retriably, the final allowed attempt is
followed by one more full delay wait (the last schedule entry), so a run over
the default 3-attempt policy completes three waits — 1s, 3s and 5s — before
returning the all-attempts-failed error; and a cancellation token firing
during that final wait makes `Retry` return the cancellation error instead of
the exhausted error. -/
theorem retry_final_wait (opA : Nat → Option AgentErr) (opP : Nat → Option DBErr)
    (hA : ∀ k, ∃ e, opA k = some e ∧ IsRetriableError e = true)
    (hP : ∀ k, ∃ e, opP k = some e ∧ PostgresErrorClassifier.Classify (some e) = .Retriable) :
    HTTPSender.Retry none opA = ⟨3, [1, 3, 5], .exhausted⟩ ∧
    HTTPSender.Retry (some 2) opA = ⟨3, [1, 3], .cancelled⟩ ∧
    PostgresStorage.Retry none opP = ⟨3, [1, 3, 5], .exhausted⟩ ∧
    PostgresStorage.Retry (some 2) opP = ⟨3, [1, 3], .cancelled⟩ := by
  have hp : ∀ k, ∃ e, opP k = some e ∧
      (PostgresErrorClassifier.Classify (some e) == ErrorClassification.Retriable) = true := by
    intro k
    obtain ⟨e, he, hcl⟩ := hP k
    exact ⟨e, he, by rw [hcl]; rfl⟩
  unfold HTTPSender.Retry PostgresStorage.Retry
  exact ⟨retryRun_exhausted IsRetriableError opA (hA 0) (hA 1) (hA 2),
    retryRun_cancel_final_wait IsRetriableError opA (hA 0) (hA 1) (hA 2),
    retryRun_exhausted _ opP (hp 0) (hp 1) (hp 2),
    retryRun_cancel_final_wait _ opP (hp 0) (hp 1) (hp 2)⟩

/-- Witness for C10 at concrete operations. -/
theorem retry_final_wait_witness :
    HTTPSender.Retry none opAlwaysRetriable = ⟨3, [1, 3, 5], .exhausted⟩ ∧
    HTTPSender.Retry (some 2) opAlwaysRetriable = ⟨3, [1, 3], .cancelled⟩ ∧
    PostgresStorage.Retry none pgOpAlwaysRetriable = ⟨3, [1, 3, 5], .exhausted⟩ ∧
    PostgresStorage.Retry (some 2) pgOpAlwaysRetriable = ⟨3, [1, 3], .cancelled⟩ :=
  retry_final_wait opAlwaysRetriable pgOpAlwaysRetriable
    (fun _ => ⟨.retriableWrap "net", rfl, rfl⟩)
    (fun _ => ⟨.pgError "08006", rfl, by decide⟩)

/-- C1 counterexample: against a server that always returns 500 on the batch
endpoint and 200 on the per-item endpoints, `SendMetrics` for a batch of 2
valid metrics does return nil, but the server observes 3 batch attempts (the
full default retry budget), not 1 — the claimed outcome is false. -/
theorem sendMetrics_one_batch_attempt_false :
    ¬ ((HTTPSender.SendMetrics c1Server c1Metrics).batchAttempts = 1 ∧
      (HTTPSender.SendMetrics c1Server c1Metrics).itemAttempts = 2 ∧
      (HTTPSender.SendMetrics c1Server c1Metrics).ok = true) := by
  decide

/-- C1 (amended): against a server that always returns 500 on the batch
endpoint and 200 on the per-item endpoints, `SendMetrics` for any batch of 2
valid metrics returns nil, and the server observes exactly 3 batch attempts
(one per attempt of the default retry policy) plus 2 individual attempts. -/
theorem sendMetrics_fallback_chain (m1 m2 : Metrics)
    (h1 : validateMetric m1 = none) (h2 : validateMetric m2 = none) :
    HTTPSender.SendMetrics c1Server [m1, m2] = ⟨3, 2, [m1, m2], true⟩ := by
  unfold HTTPSender.SendMetrics
  have hf : [m1, m2].filter (fun m => (validateMetric m).isNone) = [m1, m2] := by
    simp [List.filter, h1, h2]
  rw [hf]
  rfl

/-- Witness for C1's amended theorem at the concrete two-metric batch. -/
theorem sendMetrics_fallback_chain_witness :
    HTTPSender.SendMetrics c1Server c1Metrics = ⟨3, 2, c1Metrics, true⟩ :=
  sendMetrics_fallback_chain _ _ (by decide) (by decide)

/-- C4: `SendMetrics` transmits exactly the metrics that pass validation —
each invalid entry (empty id; Gauge with absent value; Counter with absent
delta; Counter with negative delta) is dropped and never transmitted; an
invalid metric yields a validation error value from the total function
`validateMetric` (in particular a Counter with a nil delta yields an error,
not a crash: the nil check precedes any dereference). -/
theorem sendMetrics_validation (server : ServerModel) (metrics : List Metrics) (m : Metrics) :
    (HTTPSender.SendMetrics server metrics).sentMetrics =
      metrics.filter (fun x => (validateMetric x).isNone) ∧
    ((validateMetric m).isSome → m ∉ (HTTPSender.SendMetrics server metrics).sentMetrics) ∧
    (m.id = "" → (validateMetric m).isSome) ∧
    (m.mtype = model.Counter → m.delta = none → (validateMetric m).isSome) ∧
    (∀ d, m.mtype = model.Counter → m.delta = some d → d < 0 → (validateMetric m).isSome) ∧
    (m.mtype = model.Gauge → m.value = none → (validateMetric m).isSome) := by
  have hsent : (HTTPSender.SendMetrics server metrics).sentMetrics =
      metrics.filter (fun x => (validateMetric x).isNone) := by
    unfold HTTPSender.SendMetrics sendFallback
    split <;> rfl
  refine ⟨hsent, ?_, ?_, ?_, ?_, ?_⟩
  · intro hsome hmem
    rw [hsent] at hmem
    have hnone := (List.mem_filter.mp hmem).2
    rw [Option.isSome_iff_exists] at hsome
    obtain ⟨msg, hmsg⟩ := hsome
    rw [hmsg] at hnone
    simp at hnone
  · intro hid
    simp [validateMetric, hid]
  · intro hmt hd
    by_cases hid : m.id = ""
    · simp [validateMetric, hid]
    · simp [validateMetric, hid, hmt, hd]
  · intro d hmt hd hlt
    by_cases hid : m.id = ""
    · simp [validateMetric, hid]
    · simp [validateMetric, hid, hmt, hd, hlt]
  · intro hmt hv
    by_cases hid : m.id = ""
    · simp [validateMetric, hid]
    · by_cases hmc : m.mtype = model.Counter
      · rw [hmc] at hmt
        exact absurd hmt.symm (by decide)
      · simp [validateMetric, hid, hmc, hmt, hv, model.Gauge, model.Counter]

/-- Witness for C4: the nil-delta counter is rejected with an error value and
is not among the transmitted metrics of a concrete mixed batch. -/
theorem sendMetrics_validation_witness :
    (validateMetric c4BadCounter).isSome = true ∧
    c4BadCounter ∉ (HTTPSender.SendMetrics c1Server c4Metrics).sentMetrics :=
  ⟨by decide, (sendMetrics_validation c1Server c4Metrics c4BadCounter).2.1 (by decide)⟩

/-- Wrapping the left summand first does not change a wrapped sum. -/
theorem wrap64_add_left (a b : Int) : wrap64 (wrap64 a + b) = wrap64 (a + b) := by
  unfold wrap64
  have h63 : (2 : Int) ^ 63 = 9223372036854775808 := by norm_num
  have h64 : (2 : Int) ^ 64 = 18446744073709551616 := by norm_num
  rw [h63, h64]
  omega

/-- An in-range value is its own wrap. -/
theorem wrap64_eq_self (x : Int) (h1 : -(2 ^ 63) ≤ x) (h2 : x < 2 ^ 63) : wrap64 x = x := by
  unfold wrap64
  have h63 : (2 : Int) ^ 63 = 9223372036854775808 := by norm_num
  have h64 : (2 : Int) ^ 64 = 18446744073709551616 := by norm_num
  rw [h63, h64]
  rw [h63] at h1 h2
  omega

/-- Folding int64 additions over a list starting from a wrapped seed wraps the
mathematical sum. -/
theorem foldl_i64add_wrap (ds : List Int) (c : Int) :
    ds.foldl i64add (wrap64 c) = wrap64 (c + ds.sum) := by
  induction ds generalizing c with
  | nil => simp
  | cons d rest ih =>
    simp only [List.foldl_cons, List.sum_cons]
    rw [show i64add (wrap64 c) d = wrap64 (c + d) from wrap64_add_left c d, ih (c + d)]
    congr 1
    ring

/-- One batch entry changes the stored value of counter `id` exactly by
folding the deltas it contributes. -/
theorem applyBatchEntry_counterValue (m : MemStorage) (metric : Metrics) (id : String) :
    (m.applyBatchEntry metric).counterValue id =
      (batchCounterDeltas id [metric]).foldl i64add (m.counterValue id) := by
  unfold MemStorage.applyBatchEntry batchCounterDeltas
  by_cases hg : metric.mtype = model.Gauge
  · have hc : ¬ metric.mtype = model.Counter := by
      rw [hg]; decide
    rcases hv : metric.value with _ | v <;>
      simp [hv, hg, hc, model.Counter, model.Gauge, MemStorage.UpsertGauge,
        MemStorage.counterValue, List.filterMap_cons]
  · by_cases hc : metric.mtype = model.Counter
    · rcases hd : metric.delta with _ | d
      · simp [hd, hg, hc, model.Counter, model.Gauge, MemStorage.counterValue,
          List.filterMap_cons]
      · by_cases hid : metric.id = id
        · simp [hd, hg, hc, hid, model.Counter, model.Gauge, List.filterMap_cons,
            MemStorage.UpsertCounter, MemStorage.counterValue]
        · simp [hd, hg, hc, hid, model.Counter, model.Gauge, List.filterMap_cons,
            MemStorage.UpsertCounter, MemStorage.counterValue, Ne.symm hid]
    · simp [hg, hc, MemStorage.counterValue, List.filterMap_cons]

/-- A batch update changes the stored value of counter `id` exactly by folding
the deltas it contributes, in order. -/
theorem updateBatch_counterValue (metrics : List Metrics) (m : MemStorage) (id : String) :
    (m.UpdateMetricsBatch metrics).counterValue id =
      (batchCounterDeltas id metrics).foldl i64add (m.counterValue id) := by
  induction metrics generalizing m with
  | nil => rfl
  | cons e rest ih =>
    have hstep := applyBatchEntry_counterValue m e id
    unfold MemStorage.UpdateMetricsBatch at ih ⊢
    rw [List.foldl_cons, ih (m.applyBatchEntry e), hstep]
    unfold batchCounterDeltas
    rw [List.filterMap_cons]
    rcases hfe : (if e.mtype = model.Counter ∧ e.id = id then e.delta else none) with _ | d
    · simp [List.filterMap_cons, hfe]
    · simp [List.filterMap_cons, hfe]

/-- One storage call changes the stored value of counter `id` exactly by
folding the deltas it contributes. -/
theorem applyOp_counterValue (op : StoreOp) (m : MemStorage) (id : String) :
    (m.applyOp op).counterValue id =
      (opCounterDeltas id op).foldl i64add (m.counterValue id) := by
  rcases op with ⟨gid, v⟩ | ⟨cid, d⟩ | ms
  · rfl
  · by_cases hid : cid = id
    · simp [MemStorage.applyOp, opCounterDeltas, hid, MemStorage.UpsertCounter,
        MemStorage.counterValue]
    · simp [MemStorage.applyOp, opCounterDeltas, hid, MemStorage.UpsertCounter,
        MemStorage.counterValue, Ne.symm hid]
  · exact updateBatch_counterValue ms m id

/-- An interleaving of storage calls changes the stored value of counter `id`
exactly by folding all contributed deltas, in order. -/
theorem applyOps_counterValue (ops : List StoreOp) (m : MemStorage) (id : String) :
    (m.applyOps ops).counterValue id =
      (opsCounterDeltas id ops).foldl i64add (m.counterValue id) := by
  induction ops generalizing m with
  | nil => rfl
  | cons op rest ih =>
    unfold MemStorage.applyOps at ih ⊢
    rw [List.foldl_cons, ih (m.applyOp op)]
    unfold opsCounterDeltas
    rw [List.map_cons, List.flatten_cons, List.foldl_append, applyOp_counterValue]

/-- C7: for every id and every interleaving of single `UpsertCounter` calls
and `UpdateMetricsBatch` calls (under any partition of the deltas across
batches, mixed with gauge writes and other ids), the stored counter value
afterwards is the int64 sum of all the deltas applied to that id — the
two's-complement wrap of the mathematical sum, hence exactly the sum whenever
it is in int64 range — independent of the batching boundaries. -/
theorem counter_additivity (ops : List StoreOp) (id : String) :
    (MemStorage.empty.applyOps ops).counterValue id =
      wrap64 (opsCounterDeltas id ops).sum ∧
    (-(2 ^ 63) ≤ (opsCounterDeltas id ops).sum → (opsCounterDeltas id ops).sum < 2 ^ 63 →
      (MemStorage.empty.applyOps ops).counterValue id = (opsCounterDeltas id ops).sum) := by
  have hz : MemStorage.empty.counterValue id = wrap64 0 := by
    unfold MemStorage.counterValue MemStorage.empty wrap64
    norm_num
  have hmain : (MemStorage.empty.applyOps ops).counterValue id =
      wrap64 (opsCounterDeltas id ops).sum := by
    rw [applyOps_counterValue, hz, foldl_i64add_wrap, zero_add]
  exact ⟨hmain, fun h1 h2 => by rw [hmain, wrap64_eq_self _ h1 h2]⟩

/-- Witness for C7 at a concrete interleaving: deltas 1, 2, 4 to "PollCount"
via a single upsert and two batches give stored value 7. -/
theorem counter_additivity_witness :
    (-(2 ^ 63) ≤ (opsCounterDeltas "PollCount" c7ops).sum ∧
      (opsCounterDeltas "PollCount" c7ops).sum < 2 ^ 63) ∧
    (MemStorage.empty.applyOps c7ops).counterValue "PollCount" =
      (opsCounterDeltas "PollCount" c7ops).sum :=
  ⟨⟨by decide, by decide⟩,
    (counter_additivity c7ops "PollCount").2 (by decide) (by decide)⟩

/-- If some executed statement of the batch fails, the transaction loop ends
in a rollback, never in a commit. -/
theorem pgBatchLoop_fails (metrics : List Metrics) (fail : Nat → Option DBErr)
    (t : PgState) (k0 : Nat)
    (hwf : pgWellFormed metrics)
    (hfail : ∃ j, j < pgExecCount metrics ∧ (fail (k0 + j)).isSome) :
    ∃ e, pgBatchLoop fail t k0 metrics = .rolledBack e := by
  induction metrics generalizing t k0 with
  | nil =>
    obtain ⟨j, hj, _⟩ := hfail
    simp [pgExecCount] at hj
  | cons metric rest ih =>
    have hhead := hwf metric (by simp)
    have htail : pgWellFormed rest := fun m hm => hwf m (List.mem_cons_of_mem _ hm)
    by_cases hg : metric.mtype = model.Gauge
    · obtain ⟨v, hv⟩ := Option.isSome_iff_exists.mp (hhead.1 hg)
      rcases hk : fail k0 with _ | e
      · obtain ⟨j, hj, hsome⟩ := hfail
        have hcons : pgExecCount (metric :: rest) =
            (if metric.mtype = model.Gauge ∨ metric.mtype = model.Counter
              then pgExecCount rest + 1 else pgExecCount rest) := rfl
        have hexec : pgExecCount (metric :: rest) = pgExecCount rest + 1 := by
          rw [hcons, if_pos (Or.inl hg)]
        rw [hexec] at hj
        rcases j with _ | j'
        · rw [Nat.add_zero] at hsome
          rw [hk] at hsome
          simp at hsome
        · have harith : k0 + (j' + 1) = (k0 + 1) + j' := by omega
          rw [harith] at hsome
          obtain ⟨e, he⟩ := ih (pgUpsertGauge t metric.id v) (k0 + 1) htail
            ⟨j', by omega, hsome⟩
          refine ⟨e, ?_⟩
          unfold pgBatchLoop
          rw [if_pos hg, hv, hk]
          exact he
      · refine ⟨e, ?_⟩
        unfold pgBatchLoop
        rw [if_pos hg, hv, hk]
    · by_cases hc : metric.mtype = model.Counter
      · obtain ⟨d, hd⟩ := Option.isSome_iff_exists.mp (hhead.2 hc)
        rcases hk : fail k0 with _ | e
        · obtain ⟨j, hj, hsome⟩ := hfail
          have hcons : pgExecCount (metric :: rest) =
              (if metric.mtype = model.Gauge ∨ metric.mtype = model.Counter
                then pgExecCount rest + 1 else pgExecCount rest) := rfl
          have hexec : pgExecCount (metric :: rest) = pgExecCount rest + 1 := by
            rw [hcons, if_pos (Or.inr hc)]
          rw [hexec] at hj
          rcases j with _ | j'
          · rw [Nat.add_zero] at hsome
            rw [hk] at hsome
            simp at hsome
          · have harith : k0 + (j' + 1) = (k0 + 1) + j' := by omega
            rw [harith] at hsome
            obtain ⟨e, he⟩ := ih (pgUpsertCounter t metric.id d) (k0 + 1) htail
              ⟨j', by omega, hsome⟩
            refine ⟨e, ?_⟩
            unfold pgBatchLoop
            rw [if_neg hg, if_pos hc, hd, hk]
            exact he
        · refine ⟨e, ?_⟩
          unfold pgBatchLoop
          rw [if_neg hg, if_pos hc, hd, hk]
      · obtain ⟨j, hj, hsome⟩ := hfail
        have hcons : pgExecCount (metric :: rest) =
            (if metric.mtype = model.Gauge ∨ metric.mtype = model.Counter
              then pgExecCount rest + 1 else pgExecCount rest) := rfl
        have hexec : pgExecCount (metric :: rest) = pgExecCount rest := by
          rw [hcons, if_neg (by tauto)]
        rw [hexec] at hj
        obtain ⟨e, he⟩ := ih t k0 htail ⟨j, hj, hsome⟩
        refine ⟨e, ?_⟩
        unfold pgBatchLoop
        rw [if_neg hg, if_neg hc]
        exact he

/-- C8: on the durable backend, `UpdateMetricsBatch` is all-or-nothing — if
applying any single (executed) entry of a well-formed batch fails, the
transaction is rolled back and the visible state afterwards equals the state
before the call, so none of the batch's entries are visible. -/
theorem batch_atomicity (fail : Nat → Option DBErr) (s : PgState) (metrics : List Metrics)
    (hwf : pgWellFormed metrics)
    (hfail : ∃ k, k < pgExecCount metrics ∧ (fail k).isSome) :
    (∃ e, PostgresStorage.UpdateMetricsBatchTx fail s metrics = .rolledBack e) ∧
    pgVisibleAfter fail s metrics = s := by
  have hfail0 : ∃ j, j < pgExecCount metrics ∧ (fail (0 + j)).isSome := by
    obtain ⟨k, hk, hsome⟩ := hfail
    exact ⟨k, hk, by rw [Nat.zero_add]; exact hsome⟩
  obtain ⟨e, he⟩ := pgBatchLoop_fails metrics fail s 0 hwf hfail0
  refine ⟨⟨e, he⟩, ?_⟩
  unfold pgVisibleAfter
  rw [show pgBatchLoop fail s 0 metrics = .rolledBack e from he]

/-- Witness for C8: a concrete three-entry batch whose second statement fails
leaves an empty database empty, with a rollback. -/
theorem batch_atomicity_witness :
    pgWellFormed c8metrics ∧
    ((∃ e, PostgresStorage.UpdateMetricsBatchTx c8fail c8init c8metrics = .rolledBack e) ∧
      pgVisibleAfter c8fail c8init c8metrics = c8init) :=
  ⟨by unfold pgWellFormed; decide,
    batch_atomicity c8fail c8init c8metrics (by unfold pgWellFormed; decide)
      ⟨1, by decide, by decide⟩⟩

/-- C9: a report tick never drops metrics — when the bounded work queue is
full the swapped-out batch is appended back into the still-open accumulator
(accumulator and queue unchanged up to the swap), and in every case the
multiset of metrics held in the accumulator plus the work queue is preserved
by the dispatcher step. -/
theorem dispatcher_no_loss (rateLimit : Nat) (s : DispatchState) :
    ((reportTickStep rateLimit s).acc ++ (reportTickStep rateLimit s).queue.flatten).Perm
      (s.acc ++ s.queue.flatten) ∧
    (queueCapacity rateLimit ≤ s.queue.length →
      (reportTickStep rateLimit s).acc = s.acc ∧
      (reportTickStep rateLimit s).queue = s.queue) := by
  unfold reportTickStep
  constructor
  · split_ifs with he hlt
    · have hnil : s.acc = [] := by
        simpa using he
      simp [hnil]
    · simp only [List.nil_append, List.flatten_append, List.flatten_cons, List.flatten_nil,
        List.append_nil]
      exact List.perm_append_comm
    · exact List.Perm.refl _
  · intro hfull
    split_ifs with he hlt
    · have hnil : s.acc = [] := by
        simpa using he
      exact ⟨hnil.symm, rfl⟩
    · omega
    · exact ⟨rfl, rfl⟩

/-- Witness for C9 at a concrete saturated state. -/
theorem dispatcher_no_loss_witness :
    queueCapacity 1 ≤ c9state.queue.length ∧
    ((reportTickStep 1 c9state).acc ++ (reportTickStep 1 c9state).queue.flatten).Perm
      (c9state.acc ++ c9state.queue.flatten) ∧
    (reportTickStep 1 c9state).acc = c9state.acc ∧
    (reportTickStep 1 c9state).queue = c9state.queue :=
  ⟨by decide, (dispatcher_no_loss 1 c9state).1,
    ((dispatcher_no_loss 1 c9state).2 (by decide)).1,
    ((dispatcher_no_loss 1 c9state).2 (by decide)).2⟩
